import Mathlib

/-!
Verification of the volume lifecycle handlers of terraform-provider-rancher
(`rancher/resource_rancher_volume.go`).

The handlers are shallowly embedded as pure Lean functions. Each outbound
collaborator call (client resolution, `Volume.ById`, `Volume.Create`,
`Volume.Update`, `Volume.ActionRemove`) is abstracted by an environment record
supplying the response the remote API would give at that call site; the handler
body is then a direct transcription of the Go control flow over those
responses. A nil-pointer dereference in the Go code (reading a field of a
volume that the by-id lookup reported absent) is modelled by a distinguished
`crashed` outcome, since the Go program panics there instead of returning.

The state-convergence poller (`resource.StateChangeConf.WaitForState` of the
terraform helper library) is not part of the repository's own sources; it is
modelled from the spec, as a fold over the finite trace of refresh results,
with trace exhaustion standing for the wall-clock timeout.
-/

namespace RancherVolume

/-- A remote Rancher volume as surfaced by the go-rancher v2 client: the
fields the handlers read (`Id`, `Name`, `Description`, `Driver`, `AccountId`,
`State`, `Removed`). -/
structure Volume where
  id : String
  name : String
  description : String
  driver : String
  accountId : String
  state : String
  removedTs : String
deriving DecidableEq, Repr

/-- An error message returned by an outbound API call. -/
abbrev ApiErr := String

/-- Result of `client.Volume.ById(id)`: a transport error, or an optional
volume (`none` when the resource is absent: go-rancher returns a nil pointer
and a nil error on 404). -/
abbrev ByIdResult := Except ApiErr (Option Volume)

instance {ε α : Type} [DecidableEq ε] [DecidableEq α] : DecidableEq (Except ε α) :=
  fun x y =>
    match x, y with
    | .ok a, .ok b =>
      if h : a = b then .isTrue (by simp [h]) else .isFalse (by simp [h])
    | .ok _, .error _ => .isFalse (fun h => Except.noConfusion h)
    | .error _, .ok _ => .isFalse (fun h => Except.noConfusion h)
    | .error a, .error b =>
      if h : a = b then .isTrue (by simp [h]) else .isFalse (by simp [h])

/-- Result of one invocation of a `resource.StateRefreshFunc`. `crash` records
that the Go closure dereferenced a nil volume pointer and panicked instead of
returning. -/
inductive RefreshResult where
  | ok (v : Volume) (state : String)
  | err (msg : ApiErr)
  | crash
deriving DecidableEq, Repr

/-- `VolumeStateRefreshFunc` (the closure body): one `Volume.ById` call. On a
transport error it returns `(nil, "", err)`; otherwise it returns
`(env, env.State, nil)` — when the lookup found no volume (`env == nil`),
evaluating `env.State` dereferences a nil pointer and panics, which is the
`crash` outcome. -/
def VolumeStateRefreshFunc : ByIdResult → RefreshResult
  | .error e => .err e
  | .ok none => .crash
  | .ok (some env) => .ok env env.state

/-- The caller-supplied configuration of one convergence call
(`resource.StateChangeConf`); the durations are in seconds, as written at the
call sites. -/
structure StateChangeConf where
  pendingStates : List String
  targetStates : List String
  timeoutSecs : Nat
  delaySecs : Nat
  minTimeoutSecs : Nat
deriving DecidableEq, Repr

/-- Outcome of one convergence call. -/
inductive WaitResult where
  | success (v : Volume)
  | unexpectedState (s : String)
  | timeout (lastState : String)
  | transportErr (msg : ApiErr)
  | crash
deriving DecidableEq, Repr

/-- Modelled from the spec: `WaitForState` of the terraform helper library is
not under the repository sources. Per the spec's poller algorithm, each fetched
state is classified against the configuration: a state in the target set
returns success immediately; a state in the pending set continues the loop; a
state in neither set aborts with an unexpected-state error; a transport error
aborts immediately. The trace is the finite sequence of refresh results the
poller would observe; its exhaustion stands for the wall-clock timeout. -/
def WaitForState (c : StateChangeConf) : List RefreshResult → WaitResult
  | [] => .timeout ""
  | r :: rest =>
    match r with
    | .err m => .transportErr m
    | .crash => .crash
    | .ok v s =>
      if s ∈ c.targetStates then .success v
      else if s ∈ c.pendingStates then WaitForState c rest
      else .unexpectedState s

/-- One convergence call as the handlers perform it: the refresh function is
`VolumeStateRefreshFunc` applied to the successive `Volume.ById` responses. -/
def waitVolume (c : StateChangeConf) (trace : List ByIdResult) : WaitResult :=
  WaitForState c (trace.map VolumeStateRefreshFunc)

/-- Modelled from the spec: the error text the poller produces on a
non-success outcome (the helper library's messages are not under the
repository sources); only its presence matters to the handlers, which wrap it
with a phase-identifying `fmt.Errorf` message. -/
def waitErrStr : WaitResult → Option String
  | .success _ => none
  | .unexpectedState s => some ("unexpected state " ++ s)
  | .timeout s => some ("timeout while waiting for state, last state: " ++ s)
  | .transportErr m => some m
  | .crash => none

/-- The declared-state attribute bag (`schema.ResourceData`) restricted to the
schema's fields: `id` (computed), `name`, `driver`, `description`,
`environment_id`. `d.SetId` writes `id`; `d.Set` writes the other fields. -/
structure ResourceData where
  id : String
  name : String
  driver : String
  description : String
  environment_id : String
deriving DecidableEq, Repr

/-- What a lifecycle handler returns to the host runtime: the final attribute
bag and the error value, plus `crashed`, which records that the Go code
panicked on a nil-pointer dereference instead of returning (in that case the
other two fields are the state at the point of the panic). -/
structure HandlerResult where
  d : ResourceData
  err : Option ApiErr
  crashed : Bool
deriving DecidableEq, Repr

/-- Modelled from the spec: the helper `removed` is not under the repository
sources. Per the spec, it tests whether a state string is the removed terminal
tag of the lifecycle enumeration (the tag the delete wait targets and the
acceptance test checks against). -/
def removed (state : String) : Bool := state == "removed"

/-- The API responses a read call consumes: the `EnvironmentClient` resolution
outcome and the one `Volume.ById` response. -/
structure ReadEnv where
  clientErr : Option ApiErr
  byId : ByIdResult
deriving DecidableEq, Repr

/-- `resourceRancherVolumeRead`: resolve the scoped client, fetch by id; an
absent volume or a removed one clears the id and returns nil; otherwise
project `Description`, `Name`, `Driver`, `AccountId` into the bag. -/
def resourceRancherVolumeRead (env : ReadEnv) (d : ResourceData) : HandlerResult :=
  match env.clientErr with
  | some e => ⟨d, some e, false⟩
  | none =>
    match env.byId with
    | .error e => ⟨d, some e, false⟩
    | .ok none => ⟨{ d with id := "" }, none, false⟩
    | .ok (some volume) =>
      if removed volume.state then
        ⟨{ d with id := "" }, none, false⟩
      else
        ⟨{ d with description := volume.description,
                  name := volume.name,
                  driver := volume.driver,
                  environment_id := volume.accountId }, none, false⟩

/-- The `stateConf` literal of `resourceRancherVolumeCreate`:
pending `["inactive"]`, target `["inactive"]`, 10 minutes, 1 s delay,
3 s minimum timeout. -/
def createSettleConf : StateChangeConf :=
  { pendingStates := ["inactive"], targetStates := ["inactive"],
    timeoutSecs := 600, delaySecs := 1, minTimeoutSecs := 3 }

/-- The API responses a create call consumes: client resolution, the
`Volume.Create` response, the `Volume.ById` responses observed by the settle
wait, and the responses of the trailing read. -/
structure CreateEnv where
  clientErr : Option ApiErr
  createResult : Except ApiErr Volume
  settleTrace : List ByIdResult
  readEnv : ReadEnv
deriving DecidableEq, Repr

/-- `resourceRancherVolumeCreate`: resolve the scoped client, call
`Volume.Create`, wait on `createSettleConf`; a wait failure returns the
wrapped error before `d.SetId` runs; on success set the id to the new
volume's and delegate to the read handler. -/
def resourceRancherVolumeCreate (env : CreateEnv) (d : ResourceData) : HandlerResult :=
  match env.clientErr with
  | some e => ⟨d, some e, false⟩
  | none =>
    match env.createResult with
    | .error e => ⟨d, some e, false⟩
    | .ok newVolume =>
      match waitVolume createSettleConf env.settleTrace with
      | .crash => ⟨d, none, true⟩
      | .success _ =>
        resourceRancherVolumeRead env.readEnv { d with id := newVolume.id }
      | w =>
        ⟨d, some ("Error waiting for volume (" ++ newVolume.id ++ ") to be created: "
              ++ (waitErrStr w).getD ""), false⟩

/-- The API responses an update call consumes. `updateErr` is the error value
of the `client.Volume.Update(volume, &volume)` call; the Go source discards
both return values of that call, so the handler below never reads this
field. -/
structure UpdateEnv where
  clientErr : Option ApiErr
  byId : ByIdResult
  updateErr : Option ApiErr
  readEnv : ReadEnv
deriving DecidableEq, Repr

/-- An update call's result: the handler outcome, and the volume record passed
to the `Volume.Update` API call when that call was reached (`none` when the
handler returned or panicked before it). -/
structure UpdateResult where
  result : HandlerResult
  sent : Option Volume
deriving DecidableEq, Repr

/-- `resourceRancherVolumeUpdate`: resolve the scoped client, fetch by id,
overwrite `Name` and `Description` on the fetched record from the bag, call
`Volume.Update` with it — the source discards that call's error — then
delegate to the read handler. When the fetch found no volume, `volume.Name`
dereferences a nil pointer and the handler panics. -/
def resourceRancherVolumeUpdate (env : UpdateEnv) (d : ResourceData) : UpdateResult :=
  match env.clientErr with
  | some e => ⟨⟨d, some e, false⟩, none⟩
  | none =>
    match env.byId with
    | .error e => ⟨⟨d, some e, false⟩, none⟩
    | .ok none => ⟨⟨d, none, true⟩, none⟩
    | .ok (some volume) =>
      let patched := { volume with name := d.name, description := d.description }
      ⟨resourceRancherVolumeRead env.readEnv d, some patched⟩

/-- The first `stateConf` literal of `resourceRancherVolumeDelete` (drain):
pending `["active", "deactivating"]`, target `["inactive", "detached"]`. -/
def deleteDrainConf : StateChangeConf :=
  { pendingStates := ["active", "deactivating"], targetStates := ["inactive", "detached"],
    timeoutSecs := 600, delaySecs := 1, minTimeoutSecs := 3 }

/-- The second `stateConf` literal of `resourceRancherVolumeDelete`
(post-remove): pending `["inactive", "detached", "removed", "removing"]`,
target `["removed"]`. -/
def deleteRemoveConf : StateChangeConf :=
  { pendingStates := ["inactive", "detached", "removed", "removing"], targetStates := ["removed"],
    timeoutSecs := 600, delaySecs := 1, minTimeoutSecs := 3 }

/-- The API responses a delete call consumes: client resolution, the initial
`Volume.ById` (only its error is used), the drain wait's `ById` responses, the
re-fetch before the remove call, the `ActionRemove` error, and the removal
wait's `ById` responses. -/
structure DeleteEnv where
  clientErr : Option ApiErr
  byId1 : ByIdResult
  drainTrace : List ByIdResult
  byId2 : ByIdResult
  removeErr : Option ApiErr
  removeTrace : List ByIdResult
deriving DecidableEq, Repr

/-- A delete call's result: the handler outcome, the convergence
configurations whose waits were started, in order, and how many times the
`ActionRemove` API call was issued. -/
structure DeleteResult where
  result : HandlerResult
  waitsRun : List StateChangeConf
  removeCalls : Nat
deriving DecidableEq, Repr

/-- `resourceRancherVolumeDelete`: resolve the scoped client, fetch by id,
drain-wait on `deleteDrainConf`, re-fetch, call `ActionRemove` (the re-fetched
volume is forwarded to the client as is, nil or not; the call's outcome is
`removeErr`), wait on `deleteRemoveConf`, then clear the id and return nil.
Every failure wraps its error with the phase's `fmt.Errorf` message and
returns the bag unchanged. -/
def resourceRancherVolumeDelete (env : DeleteEnv) (d : ResourceData) : DeleteResult :=
  match env.clientErr with
  | some e => ⟨⟨d, some e, false⟩, [], 0⟩
  | none =>
    match env.byId1 with
    | .error e => ⟨⟨d, some e, false⟩, [], 0⟩
    | .ok _ =>
      match waitVolume deleteDrainConf env.drainTrace with
      | .crash => ⟨⟨d, none, true⟩, [deleteDrainConf], 0⟩
      | .success _ =>
        (match env.byId2 with
         | .error e =>
           ⟨⟨d, some ("Failed to refresh state of detached or inactive volume ("
                 ++ d.id ++ "): " ++ e), false⟩, [deleteDrainConf], 0⟩
         | .ok _ =>
           match env.removeErr with
           | some e =>
             ⟨⟨d, some ("Error removing volume: " ++ e), false⟩, [deleteDrainConf], 1⟩
           | none =>
             match waitVolume deleteRemoveConf env.removeTrace with
             | .crash => ⟨⟨d, none, true⟩, [deleteDrainConf, deleteRemoveConf], 1⟩
             | .success _ =>
               ⟨⟨{ d with id := "" }, none, false⟩, [deleteDrainConf, deleteRemoveConf], 1⟩
             | w =>
               ⟨⟨d, some ("Error waiting for volume (" ++ d.id ++ ") to be removed: "
                     ++ (waitErrStr w).getD ""), false⟩,
                [deleteDrainConf, deleteRemoveConf], 1⟩)
      | w =>
        ⟨⟨d, some ("Error waiting for volume (" ++ d.id ++ ") to be detached or inactive: "
              ++ (waitErrStr w).getD ""), false⟩, [deleteDrainConf], 0⟩

/-- Modelled from the spec: the helper `splitID` is not under the repository
sources. Per the spec, a composite import id `<scope>/<id>` is split at its
first slash into the scope and the id; a bare id yields an empty scope.
This is the character-level worker returning `none` when no slash occurs. -/
def splitIDAux : List Char → Option (List Char × List Char)
  | [] => none
  | c :: rest =>
    if c = '/' then some ([], rest)
    else
      match splitIDAux rest with
      | none => none
      | some p => some (c :: p.1, p.2)

/-- Modelled from the spec: `splitID` returns `(scope, id)` for a composite
input and `("", id)` for a bare one. -/
def splitID (s : String) : String × String :=
  match splitIDAux s.data with
  | none => ("", s)
  | some p => (⟨p.1⟩, ⟨p.2⟩)

/-- The API responses an import call consumes: the `GlobalClient` resolution
outcome and the one `Volume.ById` response of the scope-recovery lookup. -/
structure ImportEnv where
  globalClientErr : Option ApiErr
  byId : ByIdResult
deriving DecidableEq, Repr

/-- An import call's result: the returned `ResourceData` list and error,
how many `Volume.ById` lookups were performed, and `crashed`, set when the Go
code dereferenced a nil volume pointer and panicked instead of returning. -/
structure ImportResult where
  datas : List ResourceData
  err : Option ApiErr
  lookups : Nat
  crashed : Bool
deriving DecidableEq, Repr

/-- `resourceRancherVolumeImport`: split the raw id, set the id to the
resource part; a non-empty scope part is written to `environment_id` with no
lookup; otherwise resolve the global client and fetch by id, writing
`volume.AccountId` to `environment_id` — when the lookup found no volume,
`volume.AccountId` dereferences a nil pointer and the handler panics. -/
def resourceRancherVolumeImport (env : ImportEnv) (d0 : ResourceData) : ImportResult :=
  let p := splitID d0.id
  let d : ResourceData := { d0 with id := p.2 }
  if p.1 ≠ "" then
    ⟨[{ d with environment_id := p.1 }], none, 0, false⟩
  else
    match env.globalClientErr with
    | some e => ⟨[], some e, 0, false⟩
    | none =>
      match env.byId with
      | .error e => ⟨[], some e, 1, false⟩
      | .ok none => ⟨[], none, 1, true⟩
      | .ok (some volume) =>
        ⟨[{ d with environment_id := volume.accountId }], none, 1, false⟩

/-! Concrete fixtures used by witnesses, mirroring the acceptance-test
configuration (volume `foo`, driver `rancher-nfs`, scope `env1`). -/

/-- A sample volume, as the acceptance test's configuration creates it. -/
def v0 : Volume :=
  { id := "vol-123", name := "foo", description := "volume test",
    driver := "rancher-nfs", accountId := "env1", state := "inactive", removedTs := "" }

/-- A sample declared-state bag consistent with `v0`. -/
def d0 : ResourceData :=
  { id := "vol-123", name := "foo", driver := "rancher-nfs",
    description := "volume test", environment_id := "env1" }

/-- The spec's delete scenario: the drain wait observes
`active, deactivating, inactive`. -/
def drainTraceEx : List ByIdResult :=
  [Except.ok (some { v0 with state := "active" }),
   Except.ok (some { v0 with state := "deactivating" }),
   Except.ok (some { v0 with state := "inactive" })]

/-- The spec's delete scenario: the removal wait observes
`removing, removed`. -/
def removeTraceEx : List ByIdResult :=
  [Except.ok (some { v0 with state := "removing" }),
   Except.ok (some { v0 with state := "removed" })]

/-- A fully successful delete environment following the spec's end-to-end
delete scenario. -/
def deleteEnvEx : DeleteEnv :=
  { clientErr := none, byId1 := Except.ok (some { v0 with state := "active" }),
    drainTrace := drainTraceEx, byId2 := Except.ok (some v0),
    removeErr := none, removeTrace := removeTraceEx }

/-- C1: the claim asserts that the pending and target sets of all three
convergence requests built by the lifecycle handlers are disjoint. This is
false at two concrete requests: the create-settle request has `inactive` in
both sets, and the delete post-remove request has `removed` in both sets. -/
theorem C1_counterexample :
    "inactive" ∈ createSettleConf.pendingStates ∧
    "inactive" ∈ createSettleConf.targetStates ∧
    "removed" ∈ deleteRemoveConf.pendingStates ∧
    "removed" ∈ deleteRemoveConf.targetStates := by decide

/-- C1 (amended): of the three convergence requests built by the lifecycle
handlers, only the delete-drain request has disjoint pending and target sets;
the create-settle request has `inactive` in both and the delete post-remove
request has `removed` in both. For all three requests, an observed state lying
in neither set makes the convergence call fail immediately with an
unexpected-state error after that single fetch, with no retry (the overlaps
are harmless because target membership is tested first). -/
theorem C1_state_sets :
    (∀ s, s ∈ deleteDrainConf.pendingStates → s ∉ deleteDrainConf.targetStates) ∧
    ("inactive" ∈ createSettleConf.pendingStates ∧
      "inactive" ∈ createSettleConf.targetStates) ∧
    ("removed" ∈ deleteRemoveConf.pendingStates ∧
      "removed" ∈ deleteRemoveConf.targetStates) ∧
    (∀ c, c = createSettleConf ∨ c = deleteDrainConf ∨ c = deleteRemoveConf →
      ∀ v s rest, s ∉ c.pendingStates → s ∉ c.targetStates →
        WaitForState c (RefreshResult.ok v s :: rest) = WaitResult.unexpectedState s) := by
  refine ⟨?_, by decide, by decide, ?_⟩
  · intro s hs
    simp only [deleteDrainConf, List.mem_cons, List.not_mem_nil, or_false] at hs ⊢
    rcases hs with h | h <;> subst h <;> decide
  · intro c _ v s rest hp ht
    simp only [WaitForState]
    rw [if_neg ht, if_neg hp]

/-- C1 witness: the create-settle request fails with an unexpected-state error
on first observing the state `active`, which is in neither of its sets. -/
theorem C1_state_sets_witness :
    WaitForState createSettleConf [RefreshResult.ok v0 "active"] =
      WaitResult.unexpectedState "active" :=
  C1_state_sets.2.2.2 createSettleConf (Or.inl rfl) v0 "active" [] (by decide) (by decide)

/-- C2: the claim asserts that no API-call error inside a lifecycle callback
is discarded. The update handler discards the error of
`client.Volume.Update(volume, &volume)` (the source drops both return values):
with that call failing and the follow-up read succeeding, update returns no
error. -/
theorem C2_update_error_discarded :
    (resourceRancherVolumeUpdate
      { clientErr := none, byId := Except.ok (some v0),
        updateErr := some "transport failure",
        readEnv := { clientErr := none, byId := Except.ok (some v0) } } d0).result.err
      = none := by decide

/-- C3: the claim asserts that, during delete's post-remove convergence, a
by-id lookup finding the volume absent (nil volume, nil error) is treated as
reaching the `removed` target and the wait succeeds. Instead,
`VolumeStateRefreshFunc` evaluates `env.State` on the nil volume and panics:
the wait outcome is the nil-pointer crash, not success. -/
theorem C3_notfound_crashes_removal_wait :
    waitVolume deleteRemoveConf [Except.ok none] = WaitResult.crash := rfl

/-- C4: every delete call runs at most the two convergence phases
drain-then-remove, in that order; the `ActionRemove` API call is issued at
most once and only after the drain wait has succeeded; and when delete
returns no error (and did not panic), both phases ran, the remove call was
issued exactly once, and the declared id has been cleared. -/
theorem C4_delete_two_phases (env : DeleteEnv) (d : ResourceData) :
    ((resourceRancherVolumeDelete env d).waitsRun = [] ∨
     (resourceRancherVolumeDelete env d).waitsRun = [deleteDrainConf] ∨
     (resourceRancherVolumeDelete env d).waitsRun = [deleteDrainConf, deleteRemoveConf]) ∧
    (resourceRancherVolumeDelete env d).removeCalls ≤ 1 ∧
    ((resourceRancherVolumeDelete env d).removeCalls = 1 →
      ∃ v, waitVolume deleteDrainConf env.drainTrace = WaitResult.success v) ∧
    ((resourceRancherVolumeDelete env d).result.err = none ∧
        (resourceRancherVolumeDelete env d).result.crashed = false →
      (resourceRancherVolumeDelete env d).removeCalls = 1 ∧
      (resourceRancherVolumeDelete env d).waitsRun = [deleteDrainConf, deleteRemoveConf] ∧
      (resourceRancherVolumeDelete env d).result.d.id = "") := by
  obtain ⟨ce, b1, dt, b2, re, rt⟩ := env
  cases ce with
  | some e => simp [resourceRancherVolumeDelete]
  | none =>
    cases b1 with
    | error e => simp [resourceRancherVolumeDelete]
    | ok ov =>
      cases hw : waitVolume deleteDrainConf dt with
      | crash => simp [resourceRancherVolumeDelete, hw]
      | success v =>
        cases b2 with
        | error e => simp [resourceRancherVolumeDelete, hw]
        | ok ov2 =>
          cases re with
          | some e => simp [resourceRancherVolumeDelete, hw]
          | none =>
            cases hw2 : waitVolume deleteRemoveConf rt with
            | crash => simp [resourceRancherVolumeDelete, hw, hw2]
            | success v2 => simp [resourceRancherVolumeDelete, hw, hw2]
            | unexpectedState s => simp [resourceRancherVolumeDelete, hw, hw2]
            | timeout s => simp [resourceRancherVolumeDelete, hw, hw2]
            | transportErr m => simp [resourceRancherVolumeDelete, hw, hw2]
      | unexpectedState s => simp [resourceRancherVolumeDelete, hw]
      | timeout s => simp [resourceRancherVolumeDelete, hw]
      | transportErr m => simp [resourceRancherVolumeDelete, hw]

/-- C4 witness: on the spec's end-to-end delete scenario (drain observes
`active, deactivating, inactive`; removal observes `removing, removed`), the
remove call is issued once, both phases run, and the id is cleared. -/
theorem C4_delete_two_phases_witness :
    (resourceRancherVolumeDelete deleteEnvEx d0).removeCalls = 1 ∧
    (resourceRancherVolumeDelete deleteEnvEx d0).waitsRun =
      [deleteDrainConf, deleteRemoveConf] ∧
    (resourceRancherVolumeDelete deleteEnvEx d0).result.d.id = "" :=
  (C4_delete_two_phases deleteEnvEx d0).2.2.2 (by decide)

/-- C5: a create call that fails at client resolution, at the create API
call, or at the post-create convergence returns the declared bag with its id
exactly as it was before the call; a delete call that returns an error
likewise leaves the declared id unchanged. -/
theorem C5_failure_preserves_id (cenv : CreateEnv) (denv : DeleteEnv)
    (dc dd : ResourceData) :
    ((cenv.clientErr ≠ none ∨ (∃ m, cenv.createResult = Except.error m) ∨
        (∀ v, waitVolume createSettleConf cenv.settleTrace ≠ WaitResult.success v)) →
      (resourceRancherVolumeCreate cenv dc).d.id = dc.id) ∧
    ((resourceRancherVolumeDelete denv dd).result.err ≠ none →
      (resourceRancherVolumeDelete denv dd).result.d.id = dd.id) := by
  constructor
  · intro h
    obtain ⟨ce, cr, st, renv⟩ := cenv
    cases ce with
    | some e => rfl
    | none =>
      cases cr with
      | error e => rfl
      | ok nv =>
        cases hw : waitVolume createSettleConf st with
        | success v =>
          rcases h with h | ⟨m, hm⟩ | h
          · exact absurd rfl h
          · exact Except.noConfusion hm
          · exact absurd hw (h v)
        | crash => simp [resourceRancherVolumeCreate, hw]
        | unexpectedState s => simp [resourceRancherVolumeCreate, hw]
        | timeout s => simp [resourceRancherVolumeCreate, hw]
        | transportErr m => simp [resourceRancherVolumeCreate, hw]
  · intro h
    obtain ⟨ce, b1, dt, b2, re, rt⟩ := denv
    cases ce with
    | some e => rfl
    | none =>
      cases b1 with
      | error e => rfl
      | ok ov =>
        cases hw : waitVolume deleteDrainConf dt with
        | crash => simp [resourceRancherVolumeDelete, hw]
        | success v =>
          cases b2 with
          | error e => simp [resourceRancherVolumeDelete, hw]
          | ok ov2 =>
            cases re with
            | some e => simp [resourceRancherVolumeDelete, hw]
            | none =>
              cases hw2 : waitVolume deleteRemoveConf rt with
              | crash => simp [resourceRancherVolumeDelete, hw, hw2]
              | success v2 =>
                exact absurd (by simp [resourceRancherVolumeDelete, hw, hw2]) h
              | unexpectedState s => simp [resourceRancherVolumeDelete, hw, hw2]
              | timeout s => simp [resourceRancherVolumeDelete, hw, hw2]
              | transportErr m => simp [resourceRancherVolumeDelete, hw, hw2]
        | unexpectedState s => simp [resourceRancherVolumeDelete, hw]
        | timeout s => simp [resourceRancherVolumeDelete, hw]
        | transportErr m => simp [resourceRancherVolumeDelete, hw]

/-- C5 witness: with client resolution failing, create leaves the id `vol-123`
untouched, and so does a delete whose drain wait times out. -/
theorem C5_failure_preserves_id_witness :
    (resourceRancherVolumeCreate
      { clientErr := some "no client", createResult := Except.error "unused",
        settleTrace := [], readEnv := { clientErr := none, byId := Except.ok (some v0) } }
      d0).d.id = d0.id ∧
    (resourceRancherVolumeDelete
      { clientErr := none, byId1 := Except.ok (some v0), drainTrace := [],
        byId2 := Except.ok (some v0), removeErr := none, removeTrace := [] }
      d0).result.d.id = d0.id :=
  ⟨(C5_failure_preserves_id _
      { clientErr := none, byId1 := Except.ok (some v0), drainTrace := [],
        byId2 := Except.ok (some v0), removeErr := none, removeTrace := [] }
      d0 d0).1 (Or.inl (by decide)),
   (C5_failure_preserves_id
      { clientErr := some "no client", createResult := Except.error "unused",
        settleTrace := [], readEnv := { clientErr := none, byId := Except.ok (some v0) } }
      _ d0 d0).2 (by decide)⟩

/-- C6: when the read handler's by-id lookup finds no volume, or finds one in
a removed terminal state, the handler clears the declared id and returns no
error; when it finds a volume not removed, it writes the volume's name,
description, driver and owning-scope id into the declared bag and returns no
error. -/
theorem C6_read_projection (env : ReadEnv) (d : ResourceData)
    (h : env.clientErr = none) :
    (env.byId = Except.ok none →
      resourceRancherVolumeRead env d = ⟨{ d with id := "" }, none, false⟩) ∧
    (∀ v, env.byId = Except.ok (some v) → removed v.state = true →
      resourceRancherVolumeRead env d = ⟨{ d with id := "" }, none, false⟩) ∧
    (∀ v, env.byId = Except.ok (some v) → removed v.state = false →
      resourceRancherVolumeRead env d =
        ⟨{ d with description := v.description, name := v.name, driver := v.driver,
                  environment_id := v.accountId }, none, false⟩) := by
  obtain ⟨ce, bi⟩ := env
  simp only at h
  subst h
  refine ⟨?_, ?_, ?_⟩
  · intro hb
    simp only at hb
    subst hb
    rfl
  · intro v hb hr
    simp only at hb
    subst hb
    simp [resourceRancherVolumeRead, hr]
  · intro v hb hr
    simp only at hb
    subst hb
    simp [resourceRancherVolumeRead, hr]

/-- C6 witness: with the volume absent the id is cleared without error, and
with the volume `v0` present and not removed the bag receives its name,
description, driver and owning scope. -/
theorem C6_read_projection_witness :
    resourceRancherVolumeRead { clientErr := none, byId := Except.ok none } d0 =
      ⟨{ d0 with id := "" }, none, false⟩ ∧
    resourceRancherVolumeRead { clientErr := none, byId := Except.ok (some v0) } d0 =
      ⟨{ d0 with description := v0.description, name := v0.name, driver := v0.driver,
                 environment_id := v0.accountId }, none, false⟩ :=
  ⟨(C6_read_projection { clientErr := none, byId := Except.ok none } d0 rfl).1 rfl,
   (C6_read_projection { clientErr := none, byId := Except.ok (some v0) } d0 rfl).2.2
     v0 rfl (by decide)⟩

/-- C7: an import call whose raw id splits into a non-empty scope and a
resource id sets `environment_id` to the scope and the id to the resource
part, performing no lookup; an import call with a bare id (empty scope part)
resolves the global client, performs exactly one by-id lookup, and sets
`environment_id` from the fetched volume's owning-scope field. -/
theorem C7_import_paths (env : ImportEnv) (d : ResourceData) :
    ((splitID d.id).1 ≠ "" →
      resourceRancherVolumeImport env d =
        ⟨[{ d with id := (splitID d.id).2, environment_id := (splitID d.id).1 }],
         none, 0, false⟩) ∧
    (∀ v, (splitID d.id).1 = "" → env.globalClientErr = none →
        env.byId = Except.ok (some v) →
      resourceRancherVolumeImport env d =
        ⟨[{ d with id := (splitID d.id).2, environment_id := v.accountId }],
         none, 1, false⟩) := by
  constructor
  · intro hs
    simp [resourceRancherVolumeImport, hs]
  · intro v hs hc hb
    obtain ⟨gce, bi⟩ := env
    simp only at hc hb
    subst hc
    subst hb
    simp [resourceRancherVolumeImport, hs]

/-- C7 witness: importing `env1/vol-123` yields scope `env1` and id `vol-123`
with zero lookups; importing the bare `vol-123` performs one lookup and takes
the scope from the fetched volume's `AccountId`. -/
theorem C7_import_paths_witness :
    resourceRancherVolumeImport { globalClientErr := none, byId := Except.error "unused" }
        { d0 with id := "env1/vol-123" } =
      ⟨[{ d0 with id := "vol-123", environment_id := "env1" }], none, 0, false⟩ ∧
    resourceRancherVolumeImport { globalClientErr := none, byId := Except.ok (some v0) }
        d0 =
      ⟨[{ d0 with id := "vol-123", environment_id := v0.accountId }], none, 1, false⟩ :=
  ⟨((C7_import_paths { globalClientErr := none, byId := Except.error "unused" }
      { d0 with id := "env1/vol-123" }).1 (by decide)).trans (by decide),
   ((C7_import_paths { globalClientErr := none, byId := Except.ok (some v0) } d0).2
      v0 (by decide) rfl rfl).trans (by decide)⟩

/-- C8: reading twice against the same by-id response (no remote mutation in
between) leaves the declared bag of the second call identical to that of the
first. -/
theorem C8_read_idempotent (env : ReadEnv) (d : ResourceData) :
    (resourceRancherVolumeRead env (resourceRancherVolumeRead env d).d).d =
      (resourceRancherVolumeRead env d).d := by
  obtain ⟨ce, bi⟩ := env
  cases ce with
  | some e => rfl
  | none =>
    cases bi with
    | error e => rfl
    | ok ov =>
      cases ov with
      | none => rfl
      | some v =>
        by_cases hr : removed v.state = true
        · simp [resourceRancherVolumeRead, hr]
        · simp [resourceRancherVolumeRead, hr]

/-- C9: the volume record the update handler passes to the `Volume.Update`
API call is the fetched record with only `Name` and `Description` replaced
from the declared bag; in particular its id, driver, owning-scope id, state
and removed timestamp are exactly the fetched ones, whatever the declared
driver says. -/
theorem C9_update_frame (env : UpdateEnv) (d : ResourceData) (v : Volume)
    (h1 : env.clientErr = none) (h2 : env.byId = Except.ok (some v)) :
    (resourceRancherVolumeUpdate env d).sent =
      some { v with name := d.name, description := d.description } ∧
    (∀ w, (resourceRancherVolumeUpdate env d).sent = some w →
      w.id = v.id ∧ w.driver = v.driver ∧ w.accountId = v.accountId ∧
      w.state = v.state ∧ w.removedTs = v.removedTs) := by
  obtain ⟨ce, bi, ue, renv⟩ := env
  simp only at h1 h2
  subst h1
  subst h2
  constructor
  · rfl
  · intro w hw
    simp only [resourceRancherVolumeUpdate, Option.some.injEq] at hw
    subst hw
    exact ⟨rfl, rfl, rfl, rfl, rfl⟩

/-- C9 witness: with the declared driver `rancher-ebs` differing from the
fetched volume's `rancher-nfs`, the record sent to the update call keeps the
fetched driver and owning scope. -/
theorem C9_update_frame_witness :
    (resourceRancherVolumeUpdate
      { clientErr := none, byId := Except.ok (some v0), updateErr := none,
        readEnv := { clientErr := none, byId := Except.ok (some v0) } }
      { d0 with driver := "rancher-ebs" }).sent =
      some { v0 with name := d0.name, description := d0.description } :=
  (C9_update_frame
    { clientErr := none, byId := Except.ok (some v0), updateErr := none,
      readEnv := { clientErr := none, byId := Except.ok (some v0) } }
    { d0 with driver := "rancher-ebs" } v0 rfl rfl).1

/-- C10: an import call with a bare id whose global by-id lookup reports the
volume absent (nil volume, nil error) does not return a not-found error: the
handler reads `AccountId` off the nil result, i.e. it panics on a nil-pointer
dereference after exactly one lookup, the absent-resource branch being
unguarded. -/
theorem C10_import_nil_deref (env : ImportEnv) (d : ResourceData)
    (h1 : (splitID d.id).1 = "") (h2 : env.globalClientErr = none)
    (h3 : env.byId = Except.ok none) :
    resourceRancherVolumeImport env d = ⟨[], none, 1, true⟩ := by
  obtain ⟨gce, bi⟩ := env
  simp only at h2 h3
  subst h2
  subst h3
  simp [resourceRancherVolumeImport, h1]

/-- C10 witness: importing the bare id `vol-123` with the volume absent ends
in the nil-pointer crash after one lookup, not in an error return. -/
theorem C10_import_nil_deref_witness :
    resourceRancherVolumeImport { globalClientErr := none, byId := Except.ok none } d0 =
      ⟨[], none, 1, true⟩ :=
  C10_import_nil_deref { globalClientErr := none, byId := Except.ok none } d0
    (by decide) rfl rfl

end RancherVolume
